import Mathlib

/-!
Verification of the parts-lookup application (streamlit_app.py) against its
natural-language specification.  The Python core is shallowly embedded:
strings are Lean strings (lists of characters), fetched HTML pages are
abstracted to the queries the code actually performs on the parsed soup
(links with href, stripped text and nearest block-ancestor text; the first
heading; table rows of cell texts), and the HTTP fetch is an oracle
function from URL to outcome.  Exceptions raised inside the per-variant
try block are modelled by the fetch outcome constructor for a raised
exception, since the code treats every such exception as skip-to-next-variant.
All functions are ASCII models of the Python string primitives they embed.
-/

namespace PartsLookup

/-- ASCII model of the Python whitespace class used by str.strip and the regex class for whitespace. -/
def pyIsSpace (c : Char) : Bool :=
  c = ' ' || c = '\t' || c = '\n' || c = '\r' || c = '\x0b' || c = '\x0c'

def pyStripChars (cs : List Char) : List Char :=
  ((cs.dropWhile pyIsSpace).reverse.dropWhile pyIsSpace).reverse

/-- Model of Python str.strip with no argument. -/
def pyStrip (s : String) : String := ⟨pyStripChars s.data⟩

/-- Model of the substitution deleting whitespace, hyphens, dots and slashes (rule 2 of variant generation, line 297 of the source). -/
def stripSpHyDotSl (s : String) : String :=
  ⟨s.data.filter (fun c => !(pyIsSpace c || c = '-' || c = '.' || c = '/'))⟩

/-- Model of the substitution deleting only whitespace and hyphens (URL construction, line 319 of the source). -/
def stripSpHy (s : String) : String :=
  ⟨s.data.filter (fun c => !(pyIsSpace c || c = '-'))⟩

def isAsciiAlnum (c : Char) : Bool :=
  ('a' ≤ c && c ≤ 'z') || ('A' ≤ c && c ≤ 'Z') || ('0' ≤ c && c ≤ '9')

/-- Model of the substitution keeping only ASCII alphanumeric characters (rule 3 of variant generation, line 301 of the source). -/
def keepAlnum (s : String) : String := ⟨s.data.filter isAsciiAlnum⟩

/-- ASCII model of Python str.upper. -/
def pyUpper (s : String) : String := ⟨s.data.map Char.toUpper⟩

/-- ASCII model of Python str.lower. -/
def pyLower (s : String) : String := ⟨s.data.map Char.toLower⟩

def isAsciiAlpha (c : Char) : Bool := ('a' ≤ c && c ≤ 'z') || ('A' ≤ c && c ≤ 'Z')

def pyTitleGo : Bool → List Char → List Char
  | _, [] => []
  | prevCased, c :: cs =>
    if isAsciiAlpha c then
      (if prevCased then c.toLower else c.toUpper) :: pyTitleGo true cs
    else
      c :: pyTitleGo false cs

/-- ASCII model of Python str.title: a letter is upper-cased after a non-letter and lower-cased after a letter. -/
def pyTitle (s : String) : String := ⟨pyTitleGo false s.data⟩

def splitOnChar (sep : Char) : List Char → List (List Char)
  | [] => [[]]
  | c :: cs =>
    if c = sep then [] :: splitOnChar sep cs
    else
      match splitOnChar sep cs with
      | r :: rs => (c :: r) :: rs
      | [] => [[c]]

/-- Model of Python str.split with a slash separator. -/
def pySplitSlash (s : String) : List String := (splitOnChar '/' s.data).map String.mk

def containsSub (pat : List Char) : List Char → Bool
  | [] => pat.isEmpty
  | c :: rest => pat.isPrefixOf (c :: rest) || containsSub pat rest

/-- Model of the Python substring test, which is also an unanchored regex search for a literal pattern. -/
def pyContains (s pat : String) : Bool := containsSub pat.data s.data

/-- Model of Python str.startswith, which is also an anchored regex search for a literal pattern. -/
def pyStartsWith (s pre : String) : Bool := pre.data.isPrefixOf s.data

/-- Model of Python string slicing from a character index to the end. -/
def pyDrop (s : String) (n : Nat) : String := ⟨s.data.drop n⟩

def digitVal (c : Char) : Nat := c.toNat - 48

def digits? (cs : List Char) : Option Nat :=
  if cs.isEmpty then none
  else if cs.all Char.isDigit then some (cs.foldl (fun a c => a * 10 + digitVal c) 0)
  else none

/-- Model of Python int applied to a decimal string: optional surrounding whitespace, an optional sign, then a nonempty run of digits; anything else raises, modelled as none. -/
def pyInt? (s : String) : Option Int :=
  match pyStripChars s.data with
  | [] => none
  | '+' :: ds => (digits? ds).map (fun n => (n : Int))
  | '-' :: ds => (digits? ds).map (fun n => -(n : Int))
  | ds => (digits? ds).map (fun n => (n : Int))

def zeroPad (w : Nat) (s : String) : String :=
  ⟨List.replicate (w - s.length) '0'⟩ ++ s

/-- Model of the Python format specifier 04d: pad the decimal rendering with zeros to a total width of four, the sign included. -/
def pyFmt04 (n : Int) : String :=
  if n < 0 then "-" ++ zeroPad 3 (Nat.repr n.natAbs) else zeroPad 4 (Nat.repr n.toNat)

/-- One Parts_Master row's contribution to the running maximum in get_next_part_id: the row must be nonempty, its first cell must start with P, and the remainder of that cell must parse as an int; the source guards the parse with a try/except that ignores failures. -/
def rowSuffix? (row : List String) : Option Int :=
  match row with
  | [] => none
  | cell :: _ => if pyStartsWith cell "P" then pyInt? (pyDrop cell 1) else none

/-- get_next_part_id from the source (lines 246 to 262): scan the Parts_Master data rows, take the maximum parsed P-suffix starting from 0, and return P followed by the 04d rendering of that maximum plus one; when the read yields no rows the result is P0001. -/
def get_next_part_id (data : List (List String)) : String :=
  match data with
  | [] => "P0001"
  | r :: rs =>
    let max_id := (r :: rs).foldl (fun m row =>
      match rowSuffix? row with
      | some num => max m num
      | none => m) (0 : Int)
    "P" ++ pyFmt04 (max_id + 1)

/-- Specification-style reformulation of the allocation scan: the maximum numeric suffix over the well-formed rows, with 0 as the floor. -/
def suffixMax (data : List (List String)) : Int :=
  (data.filterMap rowSuffix?).foldl max 0

/-- A hyperlink of the fetched page as the code queries it: its href attribute, its stripped text, and the text of its nearest div, li or tr ancestor when one exists. -/
structure Link where
  href : String
  text : String
  parentText : Option String
  deriving DecidableEq

/-- A fetched page abstracted to the queries the code performs on the parsed soup. -/
structure Page where
  title : Option String
  links : List Link
  tables : List (List (List String))
  deriving DecidableEq

/-- Outcome of one fetch plus parse attempt: a raised exception anywhere in the per-variant try block, or a response with a status code and the parsed page. -/
inductive FetchOutcome where
  | exn : FetchOutcome
  | resp : Nat → Page → FetchOutcome
  deriving DecidableEq

structure Product where
  part_number : String
  manufacturer : String
  price_eur : String
  url : String
  source : String
  deriving DecidableEq

/-- The result dictionary built by search_spareto; its specifications entry is initialised empty at line 342 of the source and never written afterwards. -/
structure SearchResult where
  query : String
  query_used : String
  url : String
  source : String
  title : String
  products : List Product
  oe_numbers : List String
  vehicles : List String
  specifications : List (String × String)
  deriving DecidableEq

/-- The soup filter for the anchored product href regex of line 329: exactly the paths of the form /products/m/p with two nonempty slug segments. -/
def isProductHref (href : String) : Bool :=
  match pySplitSlash href with
  | ["", "products", m, p] => !(m == "") && !(p == "")
  | _ => false

/-- The soup filter for the oe href regex of line 372, an anchored literal prefix. -/
def isOeHref (href : String) : Bool := pyStartsWith href "/oe/"

/-- The soup filter for the vehicles href regex of line 377, an unanchored literal pattern. -/
def isVehicleHref (href : String) : Bool := pyContains href "/t/vehicles/"

def priceChar (c : Char) : Bool := c.isDigit || c = ',' || c = '.'

/-- First match of the euro price regex of line 360 in a text: a euro sign, optional whitespace, then a nonempty run of digits, commas and dots; the empty string when no match exists, since the code leaves the price empty then. -/
def euroSearch : List Char → String
  | [] => ""
  | c :: cs =>
    if c = '€' then
      let run := (cs.dropWhile pyIsSpace).takeWhile priceChar
      if run.isEmpty then euroSearch cs else ⟨run⟩
    else euroSearch cs

def hyphenToSpace (s : String) : String := ⟨s.data.map (fun c => if c = '-' then ' ' else c)⟩

/-- The product loop of search_spareto (lines 349 to 370): walk the matched links in document order, skip empty hrefs and hrefs already seen, and build one product per new href. -/
def collectProducts : List Link → List String → List Product
  | [], _ => []
  | l :: ls, seen =>
    if !(l.href == "") && !(seen.contains l.href) then
      { part_number := pyUpper ((pySplitSlash l.href).getLastD "")
        manufacturer := pyTitle (hyphenToSpace (((pySplitSlash l.href).dropLast).getLastD ""))
        price_eur :=
          match l.parentText with
          | some t => euroSearch t.data
          | none => ""
        url := "https://spareto.com" ++ l.href
        source := "Spareto" } :: collectProducts ls (l.href :: seen)
    else
      collectProducts ls seen

/-- The OE-number and vehicle loops (lines 372 to 380): collect stripped link texts strictly longer than a bound, first occurrence only. -/
def dedupTexts (minLen : Nat) : List Link → List String → List String
  | [], acc => acc
  | l :: ls, acc =>
    if !(l.text == "") && decide (minLen < l.text.length) && !(acc.contains l.text) then
      dedupTexts minLen ls (acc ++ [l.text])
    else
      dedupTexts minLen ls acc

/-- The result dictionary assembled for a page that passed the product-link test (lines 333 to 382 of the source). -/
def search_page (query search_query url : String) (page : Page) : SearchResult :=
  { query := query
    query_used := search_query
    url := url
    source := "Spareto"
    title :=
      match page.title with
      | some t => t
      | none => ""
    products := collectProducts (page.links.filter (fun l => isProductHref l.href)) []
    oe_numbers := dedupTexts 3 (page.links.filter (fun l => isOeHref l.href)) []
    vehicles := dedupTexts 2 (page.links.filter (fun l => isVehicleHref l.href)) []
    specifications := [] }

/-- Variant generation from the source (lines 291 to 309): the trimmed input, then the stripped, alphanumeric-only and upper-cased forms, each appended only when not already present. -/
def generate_search_variations (query : String) : List String :=
  let original := pyStrip query
  let variations := [original]
  let no_spaces := stripSpHyDotSl original
  let variations := if variations.contains no_spaces then variations else variations ++ [no_spaces]
  let alphanumeric := keepAlnum original
  let variations := if variations.contains alphanumeric then variations else variations ++ [alphanumeric]
  let upper := pyUpper no_spaces
  let variations := if variations.contains upper then variations else variations ++ [upper]
  variations

/-- The per-variant loop of search_spareto (lines 318 to 387): build the lookup URL from the whitespace-and-hyphen-stripped variant, skip on a raised exception, on status 404, and on a page with no product link; return the assembled result on the first page with a product link. -/
def searchLoop (fetch : String → FetchOutcome) (query : String) : List String → Option SearchResult
  | [] => none
  | v :: rest =>
    match fetch ("https://spareto.com/oe/" ++ stripSpHy v) with
    | FetchOutcome.exn => searchLoop fetch query rest
    | FetchOutcome.resp status page =>
      if status = 404 then searchLoop fetch query rest
      else if (page.links.filter (fun l => isProductHref l.href)).isEmpty then
        searchLoop fetch query rest
      else some (search_page query v ("https://spareto.com/oe/" ++ stripSpHy v) page)

/-- search_spareto from the source (lines 312 to 387), with the HTTP session abstracted to a fetch oracle. -/
def search_spareto (fetch : String → FetchOutcome) (query : String) : Option SearchResult :=
  searchLoop fetch query (generate_search_variations query)

/-- One variant fails when its fetch raises, returns status 404, or returns a page with no product link; these are exactly the skip conditions of the per-variant loop. -/
def variantFails (fetch : String → FetchOutcome) (v : String) : Bool :=
  match fetch ("https://spareto.com/oe/" ++ stripSpHy v) with
  | FetchOutcome.exn => true
  | FetchOutcome.resp status page =>
    status == 404 || (page.links.filter (fun l => isProductHref l.href)).isEmpty

/-- The user-supplied classification fields passed to the save routine; the price field is the already-rendered decimal string since the claims never inspect its numeric value. -/
structure InventoryInfo where
  brand : String
  category : String
  sub_category : String
  location : String
  qty : Int
  min_stock : Int
  max_stock : Int
  price_myr : String
  supplier : String

/-- Model of str.join with a fixed separator. -/
def pyJoin (sep : String) : List String → String
  | [] => ""
  | [s] => s
  | s :: r :: rest => s ++ sep ++ pyJoin sep (r :: rest)

/-- The Parts_Master row of save_to_google_sheets (lines 397 to 409). -/
def parts_row (part_id : String) (part_data : SearchResult) (inv : InventoryInfo) (today : String) : List String :=
  [part_id, part_data.query, inv.brand, inv.category, inv.sub_category,
   part_data.title, part_data.title, pyJoin ", " (part_data.vehicles.take 5), "", "", today]

/-- One Alternatives row of save_to_google_sheets (lines 413 to 430): the Is_Default cell is Yes exactly when the part number equals the selected default. -/
def alternative_row (part_id oe_number today selected_default price_myr : String) (alt : Product) : List String :=
  let is_default := if alt.part_number = selected_default then "Yes" else "No"
  [part_id, oe_number, alt.part_number, alt.manufacturer, is_default, alt.price_eur,
   price_myr, alt.source, alt.url, "In Stock",
   if is_default = "Yes" then "⭐⭐⭐⭐" else "", "", today]

/-- The Inventory row of save_to_google_sheets (lines 433 to 457): the default alternative falls back to the first product for the Manufacturer cell only, and Reorder_Needed is Yes exactly when the quantity is strictly below the minimum stock. -/
def inventory_row (part_id oe_number selected_default today : String)
    (alternatives : List Product) (inv : InventoryInfo) : List String :=
  let default_alt : Option Product :=
    match alternatives.find? (fun a => a.part_number == selected_default) with
    | some a => some a
    | none => alternatives.head?
  let reorder := if inv.qty < inv.min_stock then "Yes" else "No"
  [part_id, oe_number, selected_default,
   (default_alt.map (fun a => a.manufacturer)).getD "",
   inv.sub_category, Int.repr inv.qty, Int.repr inv.min_stock, Int.repr inv.max_stock,
   inv.location, "", reorder, today, "", inv.price_myr, inv.supplier, "", ""]

/-- One Vehicles row of save_to_google_sheets (lines 461 to 477). -/
def vehicle_row (part_id oe_number brand vehicle : String) : List String :=
  [part_id, oe_number, brand, vehicle, "", "", "", "", "", "", "", "", "", ""]

/-- The four table writes a save produces. -/
structure SavedRows where
  part_id : String
  parts : List String
  alternatives : List (List String)
  inventory : List String
  vehicles : List (List String)

/-- save_to_google_sheets (lines 390 to 479) modelled as pure row assembly: allocate the id from the current Parts_Master rows, then build the four table writes; the append calls themselves are the persistence boundary and are outside the model. The caller passes the first fifteen products as alternatives and the vehicle loop takes the first ten entries. -/
def save_to_google_sheets (data : List (List String)) (part_data : SearchResult)
    (alternatives : List Product) (inv : InventoryInfo)
    (selected_default today : String) : SavedRows :=
  let part_id := get_next_part_id data
  { part_id := part_id
    parts := parts_row part_id part_data inv today
    alternatives := alternatives.map
      (alternative_row part_id part_data.query today selected_default inv.price_myr)
    inventory := inventory_row part_id part_data.query selected_default today alternatives inv
    vehicles := (part_data.vehicles.take 10).map
      (fun v => vehicle_row part_id part_data.query inv.brand v) }

def noiseTokens : List String :=
  ["action", "price", "availability", "check", "details", "manufacturer", "part number"]

def specKeep (label value : String) : Bool :=
  !(label == "") && !(value == "") && decide (label.length < 40) && decide (value.length < 100)
    && noiseTokens.all (fun t => !(pyContains (pyLower label) t))

def upsertSpec : List (String × String) → String → String → List (String × String)
  | [], label, value => [(label, value)]
  | (l, v) :: rest, label, value =>
    if l = label then (l, value) :: rest else (l, v) :: upsertSpec rest label value

/-- Modelled from the spec: the specification extraction the specification describes (scan all table rows, first cell as label and second as value, keep under the length and noise-token filters, last write wins at the first-seen position). The source file never builds specification entries, so this definition exists only to compare the specified behaviour with the code. -/
def spec_parse_specifications (page : Page) : List (String × String) :=
  page.tables.foldl (fun acc tbl =>
    tbl.foldl (fun acc row =>
      match row with
      | label :: value :: _ => if specKeep label value then upsertSpec acc label value else acc
      | _ => acc) acc) []

/-- A landing page fixture: one product link, one OE link, one vehicle link, and a two-row specification table the code never reads. -/
def samplePage1 : Page :=
  { title := some "Oil Filter BMW"
    links :=
      [ { href := "/products/bosch-gmbh/0986452041", text := "Bosch 0986452041",
          parentText := some "Bosch €12.34" },
        { href := "/oe/11421266773", text := "11421266773", parentText := none },
        { href := "/t/vehicles/bmw-3-series", text := "BMW 3 Series", parentText := none } ]
    tables := [[["Thread Size", "M20 x 1.5"], ["Height", "79 mm"]]] }

/-- A product detail page fixture carrying a specification table and no product links. -/
def samplePage2 : Page :=
  { title := some "Detail"
    links := []
    tables := [[["Weight", "0.3 kg"], ["Diameter", "76 mm"]]] }

def emptyPage : Page := { title := none, links := [], tables := [] }

def oeQueryUrl : String := "https://spareto.com/oe/11427566327"

def detailUrl : String := "https://spareto.com/products/bosch-gmbh/0986452041"

/-- An oracle serving the landing page for the query URL and the detail page for the first product's detail URL. -/
def oracleA : String → FetchOutcome := fun url =>
  if url = oeQueryUrl then FetchOutcome.resp 200 samplePage1
  else if url = detailUrl then FetchOutcome.resp 200 samplePage2
  else FetchOutcome.exn

/-- An oracle serving only the landing page; every other URL, the detail URL included, raises. -/
def oracleB : String → FetchOutcome := fun url =>
  if url = oeQueryUrl then FetchOutcome.resp 200 samplePage1
  else FetchOutcome.exn

def oracle404 : String → FetchOutcome := fun _ => FetchOutcome.resp 404 emptyPage

/-- The result search_spareto builds from the landing page fixture. -/
def sampleResultB : SearchResult :=
  { query := "11427566327"
    query_used := "11427566327"
    url := oeQueryUrl
    source := "Spareto"
    title := "Oil Filter BMW"
    products := [ { part_number := "0986452041", manufacturer := "Bosch Gmbh",
                    price_eur := "12.34", url := detailUrl, source := "Spareto" } ]
    oe_numbers := ["11421266773"]
    vehicles := ["BMW 3 Series"]
    specifications := [] }

def sampleInv : InventoryInfo :=
  { brand := "BMW", category := "Filters", sub_category := "Oil Filter", location := "A1",
    qty := 1, min_stock := 2, max_stock := 10, price_myr := "45.0", supplier := "AutoParts" }

def prodA : Product :=
  { part_number := "A1", manufacturer := "Bosch", price_eur := "", url := "", source := "Spareto" }

/-! Helper lemmas shared by the claim theorems. -/

theorem string_append_cancel_left {a b c : String} (h : a ++ b = a ++ c) : b = c := by
  cases a
  cases b
  cases c
  simp only [String.ext_iff] at h ⊢
  exact List.append_cancel_left h

theorem contains_false_not_mem {l : List String} {a : String} (h : l.contains a = false) :
    a ∉ l := by
  simpa using h

theorem search_oracleB_eq : search_spareto oracleB "11427566327" = some sampleResultB := by
  decide

theorem foldl_rowSuffix_eq (l : List (List String)) (acc : Int) :
    l.foldl (fun m row =>
      match rowSuffix? row with
      | some num => max m num
      | none => m) acc
      = (l.filterMap rowSuffix?).foldl max acc := by
  induction l generalizing acc with
  | nil => rfl
  | cons r rs ih =>
    cases h : rowSuffix? r with
    | none => simp [List.foldl_cons, List.filterMap_cons, h, ih]
    | some n => simp [List.foldl_cons, List.filterMap_cons, h, ih]

theorem get_next_part_id_eq (data : List (List String)) :
    get_next_part_id data = "P" ++ pyFmt04 (suffixMax data + 1) := by
  cases data with
  | nil => decide
  | cons r rs =>
    simp only [get_next_part_id, suffixMax]
    rw [foldl_rowSuffix_eq]

theorem foldl_max_nonneg (l : List Int) (acc : Int) (h : 0 ≤ acc) : 0 ≤ l.foldl max acc := by
  induction l generalizing acc with
  | nil => exact h
  | cons x xs ih => exact ih _ (le_trans h (le_max_left _ _))

theorem suffixMax_nonneg (data : List (List String)) : 0 ≤ suffixMax data :=
  foldl_max_nonneg _ _ le_rfl

theorem filterMap_filter_isSome (l : List (List String)) :
    (l.filter (fun r => (rowSuffix? r).isSome)).filterMap rowSuffix? = l.filterMap rowSuffix? := by
  induction l with
  | nil => rfl
  | cons r rs ih =>
    cases h : rowSuffix? r with
    | none => simp [List.filter_cons, List.filterMap_cons, h, ih]
    | some n => simp [List.filter_cons, List.filterMap_cons, h, ih]

theorem collectProducts_url_shape :
    ∀ (ls : List Link) (seen : List String) (p : Product), p ∈ collectProducts ls seen →
      ∃ l, l ∈ ls ∧ p.url = "https://spareto.com" ++ l.href ∧ l.href ∉ seen := by
  intro ls
  induction ls with
  | nil =>
    intro seen p hp
    simp [collectProducts] at hp
  | cons l ls ih =>
    intro seen p hp
    simp only [collectProducts] at hp
    by_cases hc : (!(l.href == "") && !(seen.contains l.href)) = true
    · rw [if_pos hc] at hp
      have hnot : l.href ∉ seen := by
        simp only [Bool.and_eq_true, Bool.not_eq_true'] at hc
        exact contains_false_not_mem hc.2
      rcases List.mem_cons.mp hp with hp | hp
      · subst hp
        exact ⟨l, List.mem_cons_self _ _, rfl, hnot⟩
      · rcases ih _ p hp with ⟨l2, hl2, hshape, hnot2⟩
        exact ⟨l2, List.mem_cons_of_mem _ hl2, hshape,
          fun hm => hnot2 (List.mem_cons_of_mem _ hm)⟩
    · rw [if_neg hc] at hp
      rcases ih _ p hp with ⟨l2, hl2, hshape, hnot2⟩
      exact ⟨l2, List.mem_cons_of_mem _ hl2, hshape, hnot2⟩

theorem collectProducts_nodup :
    ∀ (ls : List Link) (seen : List String),
      ((collectProducts ls seen).map (fun p => p.url)).Nodup := by
  intro ls
  induction ls with
  | nil =>
    intro seen
    simp [collectProducts]
  | cons l ls ih =>
    intro seen
    simp only [collectProducts]
    by_cases hc : (!(l.href == "") && !(seen.contains l.href)) = true
    · rw [if_pos hc]
      simp only [List.map_cons, List.nodup_cons]
      refine ⟨?_, ih _⟩
      intro hmem
      rcases List.mem_map.mp hmem with ⟨p, hp, hurl⟩
      rcases collectProducts_url_shape ls (l.href :: seen) p hp with ⟨l2, _, hshape, hnot⟩
      rw [hshape] at hurl
      exact hnot (by rw [string_append_cancel_left hurl]; exact List.mem_cons_self _ _)
    · rw [if_neg hc]
      exact ih _

theorem isProductHref_ne_empty {href : String} (hp : isProductHref href = true) : href ≠ "" := by
  intro he
  subst he
  exact absurd hp (by decide)

theorem collectProducts_ne_nil (l : Link) (ls : List Link) (h : l.href ≠ "") :
    collectProducts (l :: ls) [] ≠ [] := by
  have hcond : (!(l.href == "") && !(([] : List String).contains l.href)) = true := by
    simp [h]
  simp only [collectProducts, if_pos hcond]
  exact List.cons_ne_nil _ _

theorem dedupTexts_nodup (minLen : Nat) :
    ∀ (ls : List Link) (acc : List String), acc.Nodup → (dedupTexts minLen ls acc).Nodup := by
  intro ls
  induction ls with
  | nil =>
    intro acc h
    exact h
  | cons l ls ih =>
    intro acc h
    simp only [dedupTexts]
    by_cases hc : (!(l.text == "") && decide (minLen < l.text.length) && !(acc.contains l.text)) = true
    · rw [if_pos hc]
      apply ih
      have hnot : l.text ∉ acc := by
        simp only [Bool.and_eq_true, Bool.not_eq_true'] at hc
        exact contains_false_not_mem hc.2
      simp [List.nodup_append, h, hnot]
    · rw [if_neg hc]
      exact ih _ h

theorem searchLoop_some (fetch : String → FetchOutcome) (query : String) :
    ∀ (vs : List String) (r : SearchResult), searchLoop fetch query vs = some r →
      ∃ v, v ∈ vs ∧ ∃ status page,
        fetch ("https://spareto.com/oe/" ++ stripSpHy v) = FetchOutcome.resp status page
        ∧ status ≠ 404
        ∧ (page.links.filter (fun l => isProductHref l.href)) ≠ []
        ∧ r = search_page query v ("https://spareto.com/oe/" ++ stripSpHy v) page := by
  intro vs
  induction vs with
  | nil =>
    intro r hr
    simp [searchLoop] at hr
  | cons v rest ih =>
    intro r hr
    simp only [searchLoop] at hr
    cases hf : fetch ("https://spareto.com/oe/" ++ stripSpHy v) with
    | exn =>
      simp only [hf] at hr
      rcases ih r hr with ⟨v2, hv2, rest2⟩
      exact ⟨v2, List.mem_cons_of_mem _ hv2, rest2⟩
    | resp status page =>
      simp only [hf] at hr
      by_cases h404 : status = 404
      · rw [if_pos h404] at hr
        rcases ih r hr with ⟨v2, hv2, rest2⟩
        exact ⟨v2, List.mem_cons_of_mem _ hv2, rest2⟩
      · rw [if_neg h404] at hr
        by_cases hemp : (page.links.filter (fun l => isProductHref l.href)).isEmpty = true
        · rw [if_pos hemp] at hr
          rcases ih r hr with ⟨v2, hv2, rest2⟩
          exact ⟨v2, List.mem_cons_of_mem _ hv2, rest2⟩
        · rw [if_neg hemp] at hr
          refine ⟨v, List.mem_cons_self _ _, status, page, hf, h404, ?_,
            (Option.some_inj.mp hr).symm⟩
          intro hnil
          apply hemp
          rw [hnil]
          rfl

theorem searchLoop_oracle_agree (f g : String → FetchOutcome) (query : String)
    (h : ∀ s, f ("https://spareto.com/oe/" ++ s) = g ("https://spareto.com/oe/" ++ s)) :
    ∀ vs : List String, searchLoop f query vs = searchLoop g query vs := by
  intro vs
  induction vs with
  | nil => rfl
  | cons v rest ih =>
    simp only [searchLoop, h (stripSpHy v)]
    cases hg : g ("https://spareto.com/oe/" ++ stripSpHy v) with
    | exn =>
      simp only [hg]
      exact ih
    | resp status page =>
      simp only [hg]
      by_cases h404 : status = 404
      · rw [if_pos h404, if_pos h404]
        exact ih
      · rw [if_neg h404, if_neg h404]
        by_cases hemp : (page.links.filter (fun l => isProductHref l.href)).isEmpty = true
        · rw [if_pos hemp, if_pos hemp]
          exact ih
        · rw [if_neg hemp, if_neg hemp]

theorem searchLoop_all_fail (fetch : String → FetchOutcome) (query : String) :
    ∀ vs : List String, (∀ v ∈ vs, variantFails fetch v = true) →
      searchLoop fetch query vs = none := by
  intro vs
  induction vs with
  | nil =>
    intro _
    rfl
  | cons v rest ih =>
    intro h
    have hv := h v (List.mem_cons_self _ _)
    simp only [variantFails] at hv
    simp only [searchLoop]
    cases hf : fetch ("https://spareto.com/oe/" ++ stripSpHy v) with
    | exn =>
      simp only [hf]
      exact ih (fun x hx => h x (List.mem_cons_of_mem _ hx))
    | resp status page =>
      simp only [hf] at hv ⊢
      by_cases h404 : status = 404
      · rw [if_pos h404]
        exact ih (fun x hx => h x (List.mem_cons_of_mem _ hx))
      · rw [if_neg h404]
        have hemp : (page.links.filter (fun l => isProductHref l.href)).isEmpty = true := by
          simp only [Bool.or_eq_true, beq_iff_eq] at hv
          rcases hv with h1 | h2
          · exact absurd h1 h404
          · exact h2
        rw [if_pos hemp]
        exact ih (fun x hx => h x (List.mem_cons_of_mem _ hx))

/-! Claim theorems. -/

/-- Claim C1, counterexample: a save with one product whose part number does not equal the
chosen default writes one Alternatives row yet zero rows with Is_Default equal to Yes; the
assembler never falls back to the first product. -/
theorem claim1_counterexample :
    ((save_to_google_sheets [] sampleResultB [prodA] sampleInv "ZZZ" "2025-01-01").alternatives.length = 1)
    ∧ ((save_to_google_sheets [] sampleResultB [prodA] sampleInv "ZZZ" "2025-01-01").alternatives.countP
        (fun row => row.getD 4 "" == "Yes")) = 0 := by
  exact ⟨by decide, by decide⟩

/-- Claim C1, amended: a written Alternatives row has Is_Default equal to Yes exactly when its
part number equals the chosen default, so the number of default rows equals the number of
products whose part number matches the selection; when nothing matches, zero rows are default. -/
theorem claim1_is_default_iff_selected (data : List (List String)) (part_data : SearchResult)
    (alternatives : List Product) (inv : InventoryInfo) (selected_default today : String) :
    ((save_to_google_sheets data part_data alternatives inv selected_default today).alternatives.countP
      (fun row => row.getD 4 "" == "Yes"))
    = alternatives.countP (fun a => a.part_number == selected_default) := by
  simp only [save_to_google_sheets, List.countP_map]
  apply List.countP_congr
  intro a _
  simp only [Function.comp_apply, alternative_row]
  by_cases h : a.part_number = selected_default
  · simp [h]
  · simp [h]

/-- Claim C2, counterexample: variant generation for the spec example yields only the literal
input; neither the grouped manufacturer form nor any lower-cased form is produced. -/
theorem claim2_counterexample :
    generate_search_variations "11427566327" = ["11427566327"]
    ∧ "11 42 7 566 327" ∉ generate_search_variations "11427566327"
    ∧ "ab12" ∉ generate_search_variations "AB-12" := by
  exact ⟨by decide, by decide, by decide⟩

/-- Claim C2, amended: variant generation applies only four transform rules in fixed order,
namely the trimmed input, the whitespace-hyphen-dot-slash-stripped form, the alphanumeric-only
form and the upper-cased stripped form, each appended only when not already present; the first
element is the trimmed input and every variant is one of the four forms, each of which occurs. -/
theorem claim2_four_rules (query : String) :
    (generate_search_variations query).head? = some (pyStrip query)
    ∧ (generate_search_variations query).Nodup
    ∧ (∀ v ∈ generate_search_variations query,
        v = pyStrip query ∨ v = stripSpHyDotSl (pyStrip query)
        ∨ v = keepAlnum (pyStrip query) ∨ v = pyUpper (stripSpHyDotSl (pyStrip query)))
    ∧ pyStrip query ∈ generate_search_variations query
    ∧ stripSpHyDotSl (pyStrip query) ∈ generate_search_variations query
    ∧ keepAlnum (pyStrip query) ∈ generate_search_variations query
    ∧ pyUpper (stripSpHyDotSl (pyStrip query)) ∈ generate_search_variations query := by
  simp only [generate_search_variations]
  split_ifs with h1 h2 h3 <;>
    simp_all [List.mem_cons, List.nodup_cons] <;>
    tauto

/-- Claim C3, counterexample: with the landing page served for the query URL, the lookup result
is identical whether the first product's detail URL serves a page with a nonempty specification
table or raises; no second fetch happens, the result's specifications stay empty, and its only
product carries exactly that detail URL. -/
theorem claim3_counterexample :
    search_spareto oracleA "11427566327" = search_spareto oracleB "11427566327"
    ∧ (search_spareto oracleA "11427566327").map (fun r => r.specifications) = some []
    ∧ (search_spareto oracleA "11427566327").map (fun r => r.products.map (fun p => p.url))
        = some [detailUrl]
    ∧ spec_parse_specifications samplePage2 ≠ [] := by
  exact ⟨by decide, by decide, by decide, by decide⟩

/-- Claim C3, amended: the lookup performs no secondary fetch: its outcome depends only on the
oracle's answers at the variant lookup URLs, and the returned result's specifications are
always empty, so nothing from a detail page ever replaces them; title, url, products and
query_used all come from the primary page. -/
theorem claim3_no_secondary_fetch (f g : String → FetchOutcome) (query : String)
    (h : ∀ s, f ("https://spareto.com/oe/" ++ s) = g ("https://spareto.com/oe/" ++ s)) :
    search_spareto f query = search_spareto g query
    ∧ ∀ r, search_spareto f query = some r → r.specifications = [] := by
  constructor
  · exact searchLoop_oracle_agree f g query h _
  · intro r hr
    simp only [search_spareto] at hr
    rcases searchLoop_some f query _ r hr with ⟨v, _, status, page, _, _, _, hr2⟩
    subst hr2
    rfl

/-- Claim C3, witness for the amended theorem at a concrete oracle whose lookup succeeds. -/
theorem claim3_witness :
    (∀ s, oracleB ("https://spareto.com/oe/" ++ s) = oracleB ("https://spareto.com/oe/" ++ s))
    ∧ (search_spareto oracleB "11427566327" = search_spareto oracleB "11427566327"
       ∧ ∀ r, search_spareto oracleB "11427566327" = some r → r.specifications = []) :=
  ⟨fun _ => rfl, claim3_no_secondary_fetch oracleB oracleB "11427566327" (fun _ => rfl)⟩

/-- Claim C4, counterexample: a fetched page carrying a two-row non-noise specification table
produces a result whose specifications are empty, while the extraction the spec describes
would keep exactly those two rows; the parser never reads tables. -/
theorem claim4_counterexample :
    search_spareto oracleB "11427566327" = some sampleResultB
    ∧ sampleResultB.specifications = []
    ∧ spec_parse_specifications samplePage1
        = [("Thread Size", "M20 x 1.5"), ("Height", "79 mm")] := by
  exact ⟨search_oracleB_eq, rfl, by decide⟩

/-- Claim C4, amended: the parser records no specification entries at all; every returned
result has an empty specifications map, whatever tables the page contains. -/
theorem claim4_specifications_empty (fetch : String → FetchOutcome) (query : String)
    (r : SearchResult) (h : search_spareto fetch query = some r) :
    r.specifications = [] := by
  simp only [search_spareto] at h
  rcases searchLoop_some fetch query _ r h with ⟨v, _, status, page, _, _, _, hr2⟩
  subst hr2
  rfl

/-- Claim C4, witness for the amended theorem at a concrete successful lookup. -/
theorem claim4_witness :
    search_spareto oracleB "11427566327" = some sampleResultB
    ∧ sampleResultB.specifications = [] :=
  ⟨search_oracleB_eq, claim4_specifications_empty oracleB "11427566327" sampleResultB search_oracleB_eq⟩

/-- Claim C5, counterexample: when every variant's fetch returns status 404 the lookup returns
None, a bare null result carrying no attempted-variant list rather than a LookupFailed value. -/
theorem claim5_counterexample :
    search_spareto oracle404 "ZZZZ-NOPE" = none := by
  decide

/-- Claim C5, amended: when every generated variant either raises, returns 404, or yields a
page with no product link, the lookup returns None as a normal value; the per-variant try
block swallows every exception, but None carries no list of attempted variants. -/
theorem claim5_all_fail_none (fetch : String → FetchOutcome) (query : String)
    (h : ∀ v ∈ generate_search_variations query, variantFails fetch v = true) :
    search_spareto fetch query = none :=
  searchLoop_all_fail fetch query _ h

/-- Claim C5, witness for the amended theorem at a concrete all-404 oracle. -/
theorem claim5_witness :
    (∀ v ∈ generate_search_variations "ZZZZ-NOPE", variantFails oracle404 v = true)
    ∧ search_spareto oracle404 "ZZZZ-NOPE" = none :=
  ⟨by decide, claim5_all_fail_none oracle404 "ZZZZ-NOPE" (by decide)⟩

/-- Claim C6: the next Part_ID is P followed by the maximum numeric suffix plus one rendered
with 04d padding; for existing suffixes 1, 3 and 7 the next id is P0008 (max plus one, not
count plus one), and with no records the id is P0001. -/
theorem claim6_id_allocation :
    get_next_part_id [["P0001"], ["P0003", "x"], ["P0007"]] = "P0008"
    ∧ get_next_part_id [] = "P0001"
    ∧ ∀ data, get_next_part_id data = "P" ++ pyFmt04 (suffixMax data + 1) :=
  ⟨by decide, rfl, get_next_part_id_eq⟩

/-- Claim C7: the Inventory row's Reorder_Needed cell is Yes exactly when the quantity is
strictly below the minimum stock; at quantity equal to the minimum it is No, and at one below
the minimum it is Yes. -/
theorem claim7_reorder_strict (data : List (List String)) (part_data : SearchResult)
    (alternatives : List Product) (inv : InventoryInfo) (selected_default today : String) :
    (((save_to_google_sheets data part_data alternatives inv selected_default today).inventory).getD 10 ""
        = "Yes" ↔ inv.qty < inv.min_stock)
    ∧ ((save_to_google_sheets data part_data alternatives
        { inv with qty := inv.min_stock } selected_default today).inventory).getD 10 "" = "No"
    ∧ ((save_to_google_sheets data part_data alternatives
        { inv with qty := inv.min_stock - 1 } selected_default today).inventory).getD 10 "" = "Yes" := by
  refine ⟨?_, ?_, ?_⟩
  · simp only [save_to_google_sheets, inventory_row]
    by_cases h : inv.qty < inv.min_stock
    · simp [h]
    · simp [h]
  · simp [save_to_google_sheets, inventory_row]
  · simp only [save_to_google_sheets, inventory_row]
    rw [if_pos (by omega)]
    simp

/-- Claim C8: every successful lookup result has products pairwise distinct by detail URL
(first occurrence kept, later duplicates of a raw path skipped), and its oe_numbers and
vehicles lists contain no duplicate strings. -/
theorem claim8_dedup_invariants (fetch : String → FetchOutcome) (query : String)
    (r : SearchResult) (h : search_spareto fetch query = some r) :
    (r.products.map (fun p => p.url)).Nodup ∧ r.oe_numbers.Nodup ∧ r.vehicles.Nodup := by
  simp only [search_spareto] at h
  rcases searchLoop_some fetch query _ r h with ⟨v, _, status, page, _, _, _, hr2⟩
  subst hr2
  exact ⟨collectProducts_nodup _ _, dedupTexts_nodup _ _ _ List.nodup_nil,
    dedupTexts_nodup _ _ _ List.nodup_nil⟩

/-- Claim C8, witness at a concrete successful lookup. -/
theorem claim8_witness :
    search_spareto oracleB "11427566327" = some sampleResultB
    ∧ ((sampleResultB.products.map (fun p => p.url)).Nodup
       ∧ sampleResultB.oe_numbers.Nodup ∧ sampleResultB.vehicles.Nodup) :=
  ⟨search_oracleB_eq, claim8_dedup_invariants oracleB "11427566327" sampleResultB search_oracleB_eq⟩

/-- Claim C9: a lookup returns a result only when some variant's fetched page holds at least
one product link; the returned result then has a nonempty products list, its query_used is one
of the generated variants, and the page fetched for that variant's URL was a non-404 response
whose links include a product href. -/
theorem claim9_nonempty_products (fetch : String → FetchOutcome) (query : String)
    (r : SearchResult) (h : search_spareto fetch query = some r) :
    r.products ≠ []
    ∧ r.query_used ∈ generate_search_variations query
    ∧ ∃ status page,
        fetch ("https://spareto.com/oe/" ++ stripSpHy r.query_used) = FetchOutcome.resp status page
        ∧ status ≠ 404
        ∧ page.links.filter (fun l => isProductHref l.href) ≠ [] := by
  simp only [search_spareto] at h
  rcases searchLoop_some fetch query _ r h with ⟨v, hv, status, page, hf, h404, hne, hr2⟩
  subst hr2
  refine ⟨?_, hv, status, page, hf, h404, hne⟩
  simp only [search_page]
  cases hfl : page.links.filter (fun l => isProductHref l.href) with
  | nil => exact absurd hfl hne
  | cons l ls =>
    apply collectProducts_ne_nil
    have hm : l ∈ page.links.filter (fun x => isProductHref x.href) := by
      rw [hfl]
      exact List.mem_cons_self _ _
    exact isProductHref_ne_empty (List.mem_filter.mp hm).2

/-- Claim C9, witness at a concrete successful lookup. -/
theorem claim9_witness :
    search_spareto oracleB "11427566327" = some sampleResultB
    ∧ (sampleResultB.products ≠ []
       ∧ sampleResultB.query_used ∈ generate_search_variations "11427566327"
       ∧ ∃ status page,
           oracleB ("https://spareto.com/oe/" ++ stripSpHy sampleResultB.query_used)
             = FetchOutcome.resp status page
           ∧ status ≠ 404
           ∧ page.links.filter (fun l => isProductHref l.href) ≠ []) :=
  ⟨search_oracleB_eq, claim9_nonempty_products oracleB "11427566327" sampleResultB search_oracleB_eq⟩

/-- Claim C10: id allocation is total by construction and malformed rows are ignored: dropping
every row whose first cell is missing, does not start with P, or has an unparseable suffix
leaves the allocated id unchanged, and the id is always P followed by a nonnegative suffix
plus one in 04d padding. -/
theorem claim10_total_ignores_malformed (data : List (List String)) :
    get_next_part_id data
      = get_next_part_id (data.filter (fun row => (rowSuffix? row).isSome))
    ∧ ∃ n : Int, 0 ≤ n ∧ get_next_part_id data = "P" ++ pyFmt04 (n + 1) := by
  constructor
  · rw [get_next_part_id_eq, get_next_part_id_eq]
    unfold suffixMax
    rw [filterMap_filter_isSome]
  · exact ⟨suffixMax data, suffixMax_nonneg data, get_next_part_id_eq data⟩

end PartsLookup
